import Mathlib

/- Verification development for the session lifecycle core of the
claude-agent-kit repository.  The definitions below are a shallow embedding
of the `Session` class and its helpers (`src/unnamed/part_011`), the
`SessionManager` class (`src/packages/server/src/server/session-manager.ts`)
and the interactive-tool placeholder detection of the UI layer
(`src/unnamed/part_006`).  Protocol messages are duck-typed records in the
source; they are embedded as records carrying exactly the fields the core
probes (`type`, `subtype`, `session_id`, `is_error`, nested content blocks,
`cwd`, `timestamp`).  External collaborators (file system, `path` module,
environment variables, the Transcript Store and the Agent Stream Client)
are passed in as explicit oracle structures. -/

namespace ClaudeAgentKit

/- A content block of a protocol message, with the fields the core probes:
`type` ("text" / "tool_use" / "tool_result"), `id` and `name` for tool-use
blocks, `tool_use_id`, `content` and `is_error` for tool-result blocks.
Absent string fields are embedded as `""` (the source coalesces them the
same way, e.g. `typeof block.id === "string" ? block.id : ""`). -/
structure ContentBlock where
  type : String
  id : String := ""
  name : String := ""
  tool_use_id : String := ""
  content : String := ""
  is_error : Bool := false
deriving Repr, DecidableEq

/- An SDK protocol message.  The source stores messages as
`{ type, subtype?, session_id?, is_error?, message: { content: [...] }, cwd?, timestamp? }`;
the nested `message.content` array is embedded directly as `content`. -/
structure SDKMessage where
  type : String
  subtype : String := ""
  session_id : String := ""
  is_error : Bool := false
  content : List ContentBlock := []
  cwd : Option String := none
  timestamp : Option Int := none
deriving Repr, DecidableEq

/- JavaScript `s.includes(pat)`: `pat` occurs as a contiguous substring of
`s`.  Implemented over the character lists so that it is executable and
kernel-reducible. -/
def charsHasPrefix : List Char → List Char → Bool
  | _, [] => true
  | [], _ :: _ => false
  | c :: cs, p :: ps => c == p && charsHasPrefix cs ps

def charsIncludes : List Char → List Char → Bool
  | [], pat => pat.isEmpty
  | c :: cs, pat => charsHasPrefix (c :: cs) pat || charsIncludes cs pat

def strIncludes (s pat : String) : Bool :=
  charsIncludes s.data pat.data

/- JavaScript `s.trim()` restricted to the ASCII whitespace that can occur
in the strings the core handles. -/
def isSpaceChar (c : Char) : Bool :=
  c == ' ' || c == '\t' || c == '\n' || c == '\r'

def jsTrim (s : String) : String :=
  ⟨((s.data.dropWhile isSpaceChar).reverse.dropWhile isSpaceChar).reverse⟩

/- JavaScript `s.toLowerCase()` (the source only compares ASCII literals). -/
def jsToLowerCase (s : String) : String :=
  ⟨s.data.map Char.toLower⟩

/- `isNonInteractivePromptPlaceholder` from `src/unnamed/part_006` (UI layer):
an error-flagged tool result whose text is one of the known non-interactive
placeholder phrases produced by the transport layer. -/
def isNonInteractivePromptPlaceholder (toolResult : Option ContentBlock) : Bool :=
  match toolResult with
  | none => false
  | some block =>
    let content := jsTrim block.content
    block.is_error && (strIncludes content "Answer questions?" || strIncludes content "Exit plan mode?")

/- A tool-use reference extracted from an assistant message
(`extractToolUseBlocks` in `src/unnamed/part_011`). -/
structure ToolUseRef where
  id : String
  name : String
deriving Repr, DecidableEq

/- `extractToolUseBlocks` (`src/unnamed/part_011` lines 147-178): tool-use
blocks of an assistant message whose `id` and `name` are nonempty. -/
def extractToolUseBlocks (message : SDKMessage) : List ToolUseRef :=
  if message.type == "assistant" then
    message.content.filterMap fun block =>
      if block.type == "tool_use" && block.id != "" && block.name != "" then
        some { id := block.id, name := block.name }
      else none
  else []

/- `messageHasToolResult` (`src/unnamed/part_011` lines 180-209): looks for
the first tool-result block of a user message matching `toolUseId`.
`some approved` embeds `{ found: true, approved }`; `none` embeds
`{ found: false }`. -/
def messageHasToolResult (message : SDKMessage) (toolUseId : String) : Option Bool :=
  if message.type == "user" then
    match message.content.find? (fun block => block.type == "tool_result" && block.tool_use_id == toolUseId) with
    | some block => some (!block.is_error)
    | none => none
  else none

/- The inner forward scan of `findLatestPendingExitPlanModeToolUseId`:
the first matching tool-result among the messages after the tool use. -/
def findResultForward (messages : List SDKMessage) (toolUseId : String) : Option Bool :=
  match messages with
  | [] => none
  | m :: rest =>
    match messageHasToolResult m toolUseId with
    | some approved => some approved
    | none => findResultForward rest toolUseId

/- The backward scan of `findLatestPendingExitPlanModeToolUseId`.  The first
argument holds the not-yet-visited messages in reverse order (most recent
first); the second argument accumulates the messages after the current
position, in original order. -/
def findPendingScan : List SDKMessage → List SDKMessage → Option String
  | [], _ => none
  | m :: earlier, later =>
    match (extractToolUseBlocks m).find? (fun tool => tool.name == "ExitPlanMode") with
    | some exitTool =>
      match findResultForward later exitTool.id with
      | some true => none
      | some _ => some exitTool.id
      | none => some exitTool.id
    | none => findPendingScan earlier (m :: later)

/- `findLatestPendingExitPlanModeToolUseId` (`src/unnamed/part_011` lines
211-242): scan the transcript backward for the most recent `ExitPlanMode`
tool use; it is pending unless a matching successful tool-result follows
(an error-flagged result deliberately leaves it re-approvable). -/
def findLatestPendingExitPlanModeToolUseId (messages : List SDKMessage) : Option String :=
  findPendingScan messages.reverse []

/- Concrete transcript used to settle C1: a plan-exit tool use answered by
an error-flagged tool result whose text is an explicit decline (not one of
the placeholder phrases). -/
def exitPlanToolUseMessage : SDKMessage :=
  { type := "assistant", content := [{ type := "tool_use", id := "toolu_01", name := "ExitPlanMode" }] }

def declineToolResultBlock : ContentBlock :=
  { type := "tool_result", tool_use_id := "toolu_01", content := "User rejected the plan", is_error := true }

def declineToolResultMessage : SDKMessage :=
  { type := "user", content := [declineToolResultBlock] }

/- The synthetic user message built by `Session.sendToolResult`
(`src/unnamed/part_011` lines 398-414); the `uuid` field is not probed by
any core logic and is not embedded. -/
def mkToolResultUserMessage (toolUseId content : String) (isError : Bool) : SDKMessage :=
  { type := "user",
    content := [{ type := "tool_result", tool_use_id := toolUseId, content := content, is_error := isError }] }

/- SDK option bags.  The source type `SessionSDKOptions` is an open record;
the embedding carries the fields the core reads or writes, with `none`
standing for "key absent".  The one place where JavaScript distinguishes a
key that is present-with-undefined from an absent key — an explicitly
cleared `cwd` — is handled by `setSDKOptions` itself, which deletes the key,
so `Option` suffices for the stored options. -/
structure SessionSDKOptions where
  cwd : Option String := none
  maxTurns : Option Nat := none
  allowedTools : Option (List String) := none
  thinkingLevel : Option String := none
  settingSources : Option (List String) := none
  model : Option String := none
deriving Repr, DecidableEq

/- A partial option bag passed to `setSDKOptions`.  For `cwd` the outer
`Option` is key presence and the inner `Option` the value (`some none`
embeds `{ cwd: undefined }`); the remaining fields are only ever supplied
with a value by the callers the claims exercise, so they carry plain
`Option` (given a value, or not given). -/
structure PartialSDKOptions where
  cwd : Option (Option String) := none
  maxTurns : Option Nat := none
  allowedTools : Option (List String) := none
  thinkingLevel : Option String := none
  settingSources : Option (List String) := none
  model : Option String := none
deriving Repr, DecidableEq

/- JavaScript object-spread for one field: the override wins when present. -/
def overrideField (base over : Option α) : Option α :=
  match over with
  | some v => some v
  | none => base

def DEFAULT_ALLOWED_TOOLS : List String :=
  ["Task", "Bash", "Glob", "Grep", "LS", "ExitPlanMode", "Read", "Edit", "MultiEdit",
   "Write", "NotebookEdit", "WebFetch", "TodoWrite", "BashOutput", "KillBash", "Skill"]

def DEFAULT_SESSION_OPTIONS : SessionSDKOptions :=
  { maxTurns := some 100,
    allowedTools := some DEFAULT_ALLOWED_TOOLS,
    thinkingLevel := some "default_on",
    settingSources := some ["user", "project", "local"] }

/- `normalizeWorkspacePath` (`src/unnamed/part_011` lines 55-58):
trim, and coalesce a missing or empty result to "undefined". -/
def normalizeWorkspacePath (value : Option String) : Option String :=
  match value with
  | none => none
  | some s =>
    let trimmed := jsTrim s
    if trimmed == "" then none else some trimmed

/- `createDefaultOptions` (`src/unnamed/part_011` lines 130-145): the default
option bag, with the `cwd` key present only when the supplied workspace path
normalizes to a nonempty string. -/
def createDefaultOptions (workspacePath : Option String) : SessionSDKOptions :=
  { DEFAULT_SESSION_OPTIONS with cwd := normalizeWorkspacePath workspacePath }

/- Oracle for the external collaborators consulted by the cwd-handling
code: directory existence (`fs.statSync`), the three workspace environment
variables, and the `path` module operations applied to them.  All are
external to the core and are passed in as opaque functions. -/
structure SysEnv where
  dirExists : String → Bool
  workspacesDirEnv : Option String := none
  projectRootEnv : Option String := none
  workspaceDirEnv : Option String := none
  resolveUnder : String → String → String
  resolveSibling : String → String → String
  baseNameOf : String → String

/- `resolveExistingWorkspaceCwd` (`src/unnamed/part_011` lines 98-128): keep
an existing directory; otherwise try the candidate directories derived from
the environment, falling back to the original path. -/
def resolveExistingWorkspaceCwd (env : SysEnv) (cwd : String) : String :=
  if env.dirExists cwd then cwd
  else
    let baseName := env.baseNameOf cwd
    let candidates :=
      (match normalizeWorkspacePath env.workspacesDirEnv with
       | some d => [env.resolveUnder d baseName]
       | none => []) ++
      (match normalizeWorkspacePath env.projectRootEnv with
       | some d => [env.resolveUnder d baseName]
       | none => []) ++
      (match normalizeWorkspacePath env.workspaceDirEnv with
       | some d => [env.resolveSibling d baseName]
       | none => [])
    match candidates.find? env.dirExists with
    | some c => c
    | none => cwd

/- Events a Session emits to its subscribers.  `messageAdded` and
`messagesUpdated` embed the broadcasts of `notifyClients`;
`stateChanged` embeds a call to `emitSessionStateChange` with a nonempty
update (the 50 ms debounce timer coalescing several such calls into one
wire message is a timing detail no claim depends on); `snapshotTo` and
`messagesUpdatedTo` embed the targeted catch-up sends of `subscribe`. -/
inductive SessionEvent where
  | messageAdded (sessionId : Option String) (message : SDKMessage)
  | messagesUpdated (sessionId : Option String) (messages : List SDKMessage)
  | stateChanged
  | snapshotTo (client : Nat)
  | messagesUpdatedTo (client : Nat) (sessionId : Option String) (messages : List SDKMessage)
  | agentQuery (resume : Option String) (cwd : Option String)
deriving Repr, DecidableEq

/- The mutable state of a `Session` (`src/unnamed/part_011` lines 245-268).
Transport clients are identified by numbers; their mutable `sessionId`
field lives in a `ClientStore` passed alongside, because client objects are
shared between the Session and the SessionManager. -/
structure SessionState where
  sessionId : Option String := none
  options : SessionSDKOptions := createDefaultOptions none
  lastModifiedTime : Int := 0
  summary : Option String := none
  error : Option String := none
  busyState : Bool := false
  loadingState : Bool := false
  messageList : List SDKMessage := []
  lastResultMessage : Option SDKMessage := none
  isLoaded : Bool := false
  clients : List Nat := []
deriving Repr, DecidableEq

/- The `sessionId` fields of all transport client objects. -/
structure ClientStore where
  sid : Nat → Option String

/- `setBusyState` / `setLoadingState` (`src/unnamed/part_011` lines
278-296): update the flag and emit a state-change only when it flips. -/
def setBusyState (st : SessionState) (state : Bool) : SessionState × List SessionEvent :=
  if st.busyState == state then (st, [])
  else ({ st with busyState := state }, [SessionEvent.stateChanged])

def setLoadingState (st : SessionState) (state : Bool) : SessionState × List SessionEvent :=
  if st.loadingState == state then (st, [])
  else ({ st with loadingState := state }, [SessionEvent.stateChanged])

/- `Session.setSDKOptions` (`src/unnamed/part_011` lines 298-325).  The
spread chain `{...baseOptions, ...this.options, ...normalized}` is embedded
field by field with `overrideField`; an explicitly supplied `cwd` bypasses
the chain exactly as in the source (`normalized` always carries the key
then, and the trailing `delete` removes it when the normalized value is
undefined). -/
def setSDKOptions (env : SysEnv) (st : SessionState) (options : PartialSDKOptions) :
    SessionState × List SessionEvent :=
  let hasExplicitCwd := options.cwd.isSome
  let normalizedCwd0 := normalizeWorkspacePath (options.cwd.getD none)
  let normalizedCwd := normalizedCwd0.map (fun c => resolveExistingWorkspaceCwd env c)
  let baseOptions := createDefaultOptions (if hasExplicitCwd then normalizedCwd else st.options.cwd)
  let nextOptions : SessionSDKOptions :=
    { cwd := if hasExplicitCwd then normalizedCwd else st.options.cwd,
      maxTurns := overrideField (overrideField baseOptions.maxTurns st.options.maxTurns) options.maxTurns,
      allowedTools := overrideField (overrideField baseOptions.allowedTools st.options.allowedTools) options.allowedTools,
      thinkingLevel := overrideField (overrideField baseOptions.thinkingLevel st.options.thinkingLevel) options.thinkingLevel,
      settingSources := overrideField (overrideField baseOptions.settingSources st.options.settingSources) options.settingSources,
      model := overrideField (overrideField baseOptions.model st.options.model) options.model }
  ({ st with options := nextOptions }, [SessionEvent.stateChanged])

/- `buildEffectiveOptions` (`src/unnamed/part_011` lines 327-332). -/
def buildEffectiveOptions (st : SessionState) : SessionSDKOptions :=
  let base := createDefaultOptions st.options.cwd
  { cwd := overrideField base.cwd st.options.cwd,
    maxTurns := overrideField base.maxTurns st.options.maxTurns,
    allowedTools := overrideField base.allowedTools st.options.allowedTools,
    thinkingLevel := overrideField base.thinkingLevel st.options.thinkingLevel,
    settingSources := overrideField base.settingSources st.options.settingSources,
    model := overrideField base.model st.options.model }

/- `findWorkspacePathFromMessages` (`src/unnamed/part_011` lines 338-341):
the `cwd` of the first message carrying a truthy one. -/
def findWorkspacePathFromMessages (messages : List SDKMessage) : Option String :=
  match messages.find? (fun msg => msg.cwd.getD "" != "") with
  | some msg => msg.cwd
  | none => none

/- `setMessages` (`src/unnamed/part_011` lines 343-361): replace the
transcript wholesale, auto-detect a workspace path when no cwd is set, and
broadcast `messages_updated`. -/
def setMessages (env : SysEnv) (st : SessionState) (messages : List SDKMessage) :
    SessionState × List SessionEvent :=
  let st1 := { st with messageList := messages }
  let stepped :=
    if st1.options.cwd.isNone then
      match findWorkspacePathFromMessages messages with
      | some detected => setSDKOptions env st1 { cwd := some (some detected) }
      | none => (st1, [])
    else (st1, [])
  (stepped.1, stepped.2 ++ [SessionEvent.messagesUpdated stepped.1.sessionId messages])

/- `syncClientSessionIds` (`src/unnamed/part_011` lines 363-368): write the
Session's id into every subscribed client object. -/
def syncClientSessionIds (st : SessionState) (cs : ClientStore) : ClientStore :=
  ⟨fun c => if c ∈ st.clients then st.sessionId else cs.sid c⟩

/- `updateSessionId` (`src/unnamed/part_011` lines 370-377). -/
def updateSessionId (st : SessionState) (cs : ClientStore) (sessionId : Option String) :
    SessionState × ClientStore :=
  if st.sessionId == sessionId then (st, cs)
  else
    let st1 := { st with sessionId := sessionId }
    (st1, syncClientSessionIds st1 cs)

/- `Session.subscribe` (`src/unnamed/part_011` lines 421-446): idempotent
add; a fresh subscriber gets its `sessionId` field written, a state
snapshot, and — when a transcript is loaded — the cached transcript. -/
def subscribe (st : SessionState) (cs : ClientStore) (client : Nat) :
    SessionState × ClientStore × List SessionEvent :=
  if client ∈ st.clients then (st, cs, [])
  else
    let st1 := { st with clients := client :: st.clients }
    let cs1 : ClientStore := ⟨fun c => if c == client then st1.sessionId else cs.sid c⟩
    (st1, cs1,
      [SessionEvent.snapshotTo client] ++
        (if st1.isLoaded then [SessionEvent.messagesUpdatedTo client st1.sessionId st1.messageList] else []))

/- `Session.unsubscribe` (`src/unnamed/part_011` lines 448-450). -/
def sessionUnsubscribe (st : SessionState) (client : Nat) : SessionState :=
  { st with clients := st.clients.filter (fun c => c != client) }

/- `addNewMessage` (`src/unnamed/part_011` lines 465-472). -/
def addNewMessage (st : SessionState) (message : SDKMessage) :
    SessionState × List SessionEvent :=
  ({ st with messageList := st.messageList ++ [message] },
   [SessionEvent.messageAdded st.sessionId message])

/- `extractTimestamp` (`src/unnamed/part_011` lines 726-744).  Timestamps
are embedded as already-numeric (the string-parsing fallback of the source
is a representation detail no claim touches). -/
def extractTimestamp (value : Option Int) : Option Int :=
  value

/- `processIncomingMessage` (`src/unnamed/part_011` lines 657-682). -/
def processIncomingMessage (st : SessionState) (cs : ClientStore) (now : Int)
    (message : SDKMessage) : SessionState × ClientStore × List SessionEvent :=
  let upd :=
    if message.session_id != "" then updateSessionId st cs (some message.session_id)
    else (st, cs)
  let st1 := upd.1
  let cs1 := upd.2
  let st2 := if message.type == "result" then { st1 with lastResultMessage := some message } else st1
  let added := addNewMessage st2 message
  let st3 := { added.1 with lastModifiedTime := (extractTimestamp message.timestamp).getD now }
  let busy :=
    if message.type == "system" then
      (if message.subtype == "init" then setBusyState st3 true else (st3, []))
    else if message.type == "result" then setBusyState st3 false
    else (st3, [])
  (busy.1, cs1, added.2 ++ busy.2)

/- `shouldSuppressExitErrorAfterResult` (`src/unnamed/part_011` lines
823-836).  Errors thrown by the Agent Stream Client are embedded by their
message string. -/
def shouldSuppressExitErrorAfterResult (error : String) (lastResult : Option SDKMessage) : Bool :=
  match lastResult with
  | none => false
  | some r =>
    if r.type != "result" then false
    else if !r.is_error then false
    else strIncludes error "Claude Code process exited with code 1"

/- One turn's worth of behaviour of the Agent Stream Client (external
collaborator): the protocol messages its async iterator yields, and an
optional error (by message text) thrown after them. -/
structure TurnStream where
  yielded : List SDKMessage := []
  thrown : Option String := none

/- The `for await` pump of `startQueryWithUserMessage`: apply
`processIncomingMessage` to each yielded message in order. -/
def pumpMessages (now : Int) : SessionState → ClientStore → List SDKMessage →
    SessionState × ClientStore × List SessionEvent
  | st, cs, [] => (st, cs, [])
  | st, cs, m :: rest =>
    let step := processIncomingMessage st cs now m
    let restOut := pumpMessages now step.1 step.2.1 rest
    (restOut.1, restOut.2.1, step.2.2 ++ restOut.2.2)

/- `startQueryWithUserMessage` (`src/unnamed/part_011` lines 538-613),
embedded as the complete execution of one turn (the call runs to the final
`await this.queryPromise`; `queryPromise` is null again on return).  The
`agentQuery` event records the single call issued to the Agent Stream
Client, with the `resume` id and the `cwd` passed to it.  The
`ensureCwdAliasExists` symlink side effect touches only the file system and
is not part of the Session's state.  Wall-clock reads are embedded by the
`now` parameter. -/
/- The summary seeding of `startQueryWithUserMessage` (lines 547-550). -/
def seedSummary (st : SessionState) (summaryText : Option String) : SessionState :=
  if st.summary.isNone then
    match summaryText with
    | some t => { st with summary := some t }
    | none => st
  else st

/- The resume-path cwd fixup of `startQueryWithUserMessage` (lines
564-589): prefer the workspace path recorded in the transcript when it
exists on disk, mutating `this.options` when it differs; the second
component is the `cwd` passed to the Agent Stream Client. -/
def applyResumeCwdFixup (env : SysEnv) (st : SessionState) : SessionState × Option String :=
  if st.sessionId.isSome then
    match normalizeWorkspacePath (findWorkspacePathFromMessages st.messageList) with
    | some transcriptCwd =>
      if env.dirExists transcriptCwd then
        ((if st.options.cwd != some transcriptCwd then
            { st with options := { st.options with cwd := some transcriptCwd } }
          else st), some transcriptCwd)
      else (st, (buildEffectiveOptions st).cwd)
    | none => (st, (buildEffectiveOptions st).cwd)
  else (st, (buildEffectiveOptions st).cwd)

/- The catch clause of `startQueryWithUserMessage` (lines 598-604):
a thrown stream error is recorded as the session's error unless it is the
known exit-code-after-reported-result condition. -/
def recordStreamError (st : SessionState) (thrown : Option String) : SessionState :=
  match thrown with
  | some e =>
    if shouldSuppressExitErrorAfterResult e st.lastResultMessage then st
    else { st with error := some e }
  | none => st

def startQueryWithUserMessage (env : SysEnv) (st : SessionState) (cs : ClientStore)
    (now : Int) (stream : TurnStream) (userMessage : SDKMessage)
    (summaryText : Option String) : SessionState × ClientStore × List SessionEvent :=
  let added := addNewMessage st userMessage
  let st2 := seedSummary added.1 summaryText
  let st3 := { st2 with lastModifiedTime := now }
  let busyOn := setBusyState st3 true
  let st4 := { busyOn.1 with lastResultMessage := none }
  let fixup := applyResumeCwdFixup env st4
  let pumped := pumpMessages now fixup.1 cs stream.yielded
  let st7 := recordStreamError pumped.1 stream.thrown
  let busyOff := setBusyState st7 false
  let st8 := { busyOff.1 with lastModifiedTime := now }
  (st8, pumped.2.1,
    added.2 ++ busyOn.2 ++ [SessionEvent.agentQuery st4.sessionId fixup.2] ++
      pumped.2.2 ++ busyOff.2)

/- `Session.sendToolResult` (`src/unnamed/part_011` lines 388-417), as
observed with no turn in flight (`queryPromise === null`, so the leading
await is a no-op; turn serialization itself is the subject of the pair
machine below).  An empty (or all-whitespace) tool-use id rejects before
any state is touched. -/
def sendToolResult (env : SysEnv) (st : SessionState) (cs : ClientStore) (now : Int)
    (stream : TurnStream) (toolUseId content : String) (isError : Bool) :
    Except String (SessionState × ClientStore × List SessionEvent) :=
  let trimmedId := jsTrim toolUseId
  if trimmedId == "" then Except.error "toolUseId is required"
  else
    Except.ok (startQueryWithUserMessage env st cs now stream
      (mkToolResultUserMessage trimmedId content isError) none)

/- File attachments (external payloads; their contents never reach the
core's logic). -/
structure AttachmentPayload where
  payload : String := ""
deriving Repr, DecidableEq

/- `Session.send` (`src/unnamed/part_011` lines 616-654), as observed with
no turn in flight.  `buildUserMessageContent` lives in the external
`@claude-agent-kit/messages` package and is passed in as an oracle. -/
/- The natural-language plan-approval test inlined in `send`
(`src/unnamed/part_011` lines 627-633): the trimmed prompt is one of the
affirmation phrases, matched case-insensitively for the English ones. -/
def isApprovalPrompt (prompt : String) : Bool :=
  let normalizedPrompt := jsTrim prompt
  normalizedPrompt == "执行" || normalizedPrompt == "运行" ||
    jsToLowerCase normalizedPrompt == "execute" || jsToLowerCase normalizedPrompt == "run"

def send (env : SysEnv) (st : SessionState) (cs : ClientStore) (now : Int)
    (stream : TurnStream)
    (buildUserMessageContent : String → List AttachmentPayload → List ContentBlock)
    (prompt : String) (attachments : List AttachmentPayload) :
    Except String (SessionState × ClientStore × List SessionEvent) :=
  let normalizedPrompt := jsTrim prompt
  let redirected :=
    if isApprovalPrompt prompt then findLatestPendingExitPlanModeToolUseId st.messageList
    else none
  match redirected with
  | some pendingExitId =>
    sendToolResult env st cs now stream pendingExitId "User approved the plan" false
  | none =>
    Except.ok (startQueryWithUserMessage env st cs now stream
      { type := "user", content := buildUserMessageContent prompt attachments }
      (some normalizedPrompt))

/- The Transcript Store (external collaborator): `loadMessages` by id,
either the persisted transcript or a thrown read error. -/
structure TranscriptStore where
  load : String → Except String (List SDKMessage)

/- `loadFromServer` (`src/unnamed/part_011` lines 474-518), embedded as the
complete execution of one load (the returned promise awaited to the end;
`loadingPromise` is null again on return).  `none` embeds the source's
`undefined` return when no target id can be determined.  The final `Nat`
counts the Transcript Store reads (`loadMessages` calls) the call performs. -/
def loadFromServer (env : SysEnv) (store : TranscriptStore) (st : SessionState)
    (cs : ClientStore) (now : Int) (sessionId : Option String) :
    Option (SessionState × ClientStore × List SessionEvent × Nat) :=
  match overrideField st.sessionId sessionId with
  | none => none
  | some target =>
    let upd := updateSessionId st cs (some target)
    let loadOn := setLoadingState upd.1 true
    let st1 := { loadOn.1 with error := none }
    match store.load target with
    | Except.ok messages =>
      if messages.length == 0 then
        let st2 := { st1 with messageList := [], summary := none, lastModifiedTime := now }
        let busyOff := setBusyState st2 false
        let loadOff := setLoadingState busyOff.1 false
        some (loadOff.1, upd.2, loadOn.2 ++ busyOff.2 ++ loadOff.2, 1)
      else
        let st2 := { st1 with summary := none }
        let setm := setMessages env st2 messages
        let busyOff := setBusyState setm.1 false
        let st3 := { busyOff.1 with isLoaded := true }
        let loadOff := setLoadingState st3 false
        some (loadOff.1, upd.2, loadOn.2 ++ setm.2 ++ busyOff.2 ++ loadOff.2, 1)
    | Except.error e =>
      let st2 := { st1 with error := some e }
      let loadOff := setLoadingState st2 false
      some (loadOff.1, upd.2, loadOn.2 ++ loadOff.2, 1)

/- `resumeFrom` (`src/unnamed/part_011` lines 520-536). -/
def resumeFrom (env : SysEnv) (store : TranscriptStore) (st : SessionState)
    (cs : ClientStore) (now : Int) (sessionId : String) :
    SessionState × ClientStore × List SessionEvent × Nat :=
  if sessionId == "" then (st, cs, [], 0)
  else if st.sessionId == some sessionId && st.isLoaded then (st, cs, [], 0)
  else
    match loadFromServer env store st cs now (some sessionId) with
    | some r => r
    | none => (st, cs, [], 0)

/- JavaScript truthiness of an optional string field (empty string and
undefined are both falsy). -/
def truthy (s : Option String) : Option String :=
  match s with
  | some v => if v == "" then none else some v
  | none => none

/- The SessionManager registry
(`src/packages/server/src/server/session-manager.ts`): the session list and
the client-to-session binding map (`clientSessions`).  Sessions are
identified by their index in the list. -/
structure ManagerState where
  sessions : List SessionState := []
  binding : Nat → Option Nat

def emptyManager : ManagerState :=
  { binding := fun _ => none }

/- `getSession` (session-manager.ts lines 28-38) without the optional
message-loading side effect: the first session whose id matches. -/
def getSessionIdx (ms : ManagerState) (sessionId : String) : Option Nat :=
  ms.sessions.findIdx? (fun s => s.sessionId == some sessionId)

def setBinding (ms : ManagerState) (client : Nat) (idx : Option Nat) : ManagerState :=
  { ms with binding := fun c => if c == client then idx else ms.binding c }

def updateSessionAt (ms : ManagerState) (idx : Nat) (f : SessionState → SessionState) :
    ManagerState :=
  { ms with sessions := ms.sessions.mapIdx (fun j s => if j == idx then f s else s) }

/- `getOrCreateSession` (session-manager.ts lines 46-69): resolution order
is id match, then prior binding, then subscriber membership, then creation.
A newly created session adopts the client's nonempty session id; the
fire-and-forget `void session.resumeFrom(...)` it triggers is asynchronous
and affects only message loading, never membership or binding. -/
def getOrCreateSession (ms : ManagerState) (cs : ClientStore) (client : Nat) :
    ManagerState × Nat :=
  let byId :=
    match truthy (cs.sid client) with
    | some sid => getSessionIdx ms sid
    | none => none
  let byBinding :=
    match byId with
    | some i => some i
    | none => ms.binding client
  let byMembership :=
    match byBinding with
    | some i => some i
    | none => ms.sessions.findIdx? (fun (s : SessionState) => s.clients.contains client)
  match byMembership with
  | some i => (setBinding ms client i, i)
  | none =>
    let newSession : SessionState := { sessionId := truthy (cs.sid client) }
    let idx := ms.sessions.length
    (setBinding { ms with sessions := ms.sessions ++ [newSession] } client idx, idx)

/- `SessionManager.subscribe` (session-manager.ts lines 72-76). -/
def managerSubscribe (ms : ManagerState) (cs : ClientStore) (client : Nat) :
    ManagerState × ClientStore × List SessionEvent :=
  let got := getOrCreateSession ms cs client
  let ms1 := got.1
  let idx := got.2
  match ms1.sessions.get? idx with
  | some s =>
    let subd := subscribe s cs client
    let ms2 := { ms1 with sessions := ms1.sessions.set idx subd.1 }
    (setBinding ms2 client (some idx), subd.2.1, subd.2.2)
  | none => (ms1, cs, [])

/- `SessionManager.unsubscribe` (session-manager.ts lines 78-86): resolve
the session through the client's `sessionId` field; remove the client from
that session's subscriber set (when one was found) and always clear the
client-to-session binding. -/
def managerUnsubscribe (ms : ManagerState) (cs : ClientStore) (client : Nat) :
    ManagerState :=
  let sessionIdx :=
    match truthy (cs.sid client) with
    | some sid => getSessionIdx ms sid
    | none => none
  match sessionIdx with
  | none => setBinding ms client none
  | some i => setBinding (updateSessionAt ms i (fun s => sessionUnsubscribe s client)) client none

/- Concrete fixtures shared by witnesses: an environment without existing
directories or configured workspace variables, an empty client store, and
an error-carrying result message. -/
def trivialEnv : SysEnv :=
  ⟨fun _ => false, none, none, none, fun _ b => b, fun _ b => b, fun s => s⟩

def emptyClientStore : ClientStore := ⟨fun _ => none⟩

def errorResultMessage : SDKMessage := { type := "result", is_error := true }

/- The last result-type message among a turn's yielded messages: the value
`this.lastResultMessage` holds when the stream ends (it is reset to null at
turn start and overwritten by each result message as it arrives). -/
def lastResultIn (msgs : List SDKMessage) : Option SDKMessage :=
  msgs.reverse.find? (fun m => m.type == "result")

/- ----------------------------------------------------------------------
Two sends in succession: a small-step machine for the turn-serialization
discipline of `send` / `startQueryWithUserMessage`.

The source runs on a single-threaded event loop.  A `send` call first
executes `if (this.queryPromise) await this.queryPromise`; when no turn is
outstanding it runs synchronously through `startQueryWithUserMessage`,
which appends the user message and installs `this.queryPromise` before the
first suspension point, so issuing a send and starting its turn is one
atomic step.  While a turn is outstanding the caller suspends on the await
and its continuation — which again appends the user message and installs
the promise synchronously — runs only after the prior turn's `finally`
cleared `queryPromise`.  Stream items arrive one per event-loop turn.

The machine below has one process per send call of the scenario (send #1
issued before send #2), a transcript of abstract entries tagged by the
writing turn, and the `queryHeld` field standing for `this.queryPromise`.
Steps are enabled exactly when the corresponding event-loop continuation
can run.
---------------------------------------------------------------------- -/

/- A transcript entry of the two-send scenario: each turn's user message,
and its stream items (abstracted to numbers). -/
inductive TEntry where
  | u1
  | s1 (k : Nat)
  | u2
  | s2 (k : Nat)
deriving Repr, DecidableEq

def TEntry.isTurn2 : TEntry → Bool
  | TEntry.u2 => true
  | TEntry.s2 _ => true
  | _ => false

/- The phase of one send call: not yet issued; suspended on the prior
turn's promise; turn in flight (with the stream items already delivered
and those still to come); completed. -/
inductive ProcPhase where
  | pending
  | waiting
  | running (taken remaining : List Nat)
  | done
deriving Repr, DecidableEq

def ProcPhase.isRunning : ProcPhase → Bool
  | ProcPhase.running _ _ => true
  | _ => false

structure PairConfig where
  transcript : List TEntry := []
  queryHeld : Option Nat := none
  p1 : ProcPhase := ProcPhase.pending
  p2 : ProcPhase := ProcPhase.pending
deriving Repr, DecidableEq

def initPairConfig : PairConfig := {}

inductive PairStep (stream1 stream2 : List Nat) : PairConfig → PairConfig → Prop where
  | issue1Start (c : PairConfig) (h1 : c.p1 = ProcPhase.pending) (h2 : c.queryHeld = none) :
      PairStep stream1 stream2 c
        { c with transcript := c.transcript ++ [TEntry.u1],
                 queryHeld := some 1,
                 p1 := ProcPhase.running [] stream1 }
  | issue2Wait (c : PairConfig) (h1 : c.p2 = ProcPhase.pending)
      (h2 : c.p1 ≠ ProcPhase.pending) (h3 : c.queryHeld ≠ none) :
      PairStep stream1 stream2 c { c with p2 := ProcPhase.waiting }
  | issue2Start (c : PairConfig) (h1 : c.p2 = ProcPhase.pending)
      (h2 : c.p1 ≠ ProcPhase.pending) (h3 : c.queryHeld = none) :
      PairStep stream1 stream2 c
        { c with transcript := c.transcript ++ [TEntry.u2],
                 queryHeld := some 2,
                 p2 := ProcPhase.running [] stream2 }
  | wake2 (c : PairConfig) (h1 : c.p2 = ProcPhase.waiting) (h2 : c.queryHeld = none) :
      PairStep stream1 stream2 c
        { c with transcript := c.transcript ++ [TEntry.u2],
                 queryHeld := some 2,
                 p2 := ProcPhase.running [] stream2 }
  | yield1 (c : PairConfig) (taken : List Nat) (k : Nat) (rest : List Nat)
      (h : c.p1 = ProcPhase.running taken (k :: rest)) :
      PairStep stream1 stream2 c
        { c with transcript := c.transcript ++ [TEntry.s1 k],
                 p1 := ProcPhase.running (taken ++ [k]) rest }
  | finish1 (c : PairConfig) (taken : List Nat) (h : c.p1 = ProcPhase.running taken []) :
      PairStep stream1 stream2 c { c with queryHeld := none, p1 := ProcPhase.done }
  | yield2 (c : PairConfig) (taken : List Nat) (k : Nat) (rest : List Nat)
      (h : c.p2 = ProcPhase.running taken (k :: rest)) :
      PairStep stream1 stream2 c
        { c with transcript := c.transcript ++ [TEntry.s2 k],
                 p2 := ProcPhase.running (taken ++ [k]) rest }
  | finish2 (c : PairConfig) (taken : List Nat) (h : c.p2 = ProcPhase.running taken []) :
      PairStep stream1 stream2 c { c with queryHeld := none, p2 := ProcPhase.done }

inductive PairReachable (stream1 stream2 : List Nat) : PairConfig → Prop where
  | init : PairReachable stream1 stream2 initPairConfig
  | step (c c2 : PairConfig) (h1 : PairReachable stream1 stream2 c)
      (h2 : PairStep stream1 stream2 c c2) : PairReachable stream1 stream2 c2

/- The transcript entries a send process has written so far, as a function
of its phase. -/
def emitted1 (stream1 : List Nat) : ProcPhase → List TEntry
  | ProcPhase.pending => []
  | ProcPhase.waiting => []
  | ProcPhase.running taken _ => TEntry.u1 :: taken.map TEntry.s1
  | ProcPhase.done => TEntry.u1 :: stream1.map TEntry.s1

def emitted2 (stream2 : List Nat) : ProcPhase → List TEntry
  | ProcPhase.pending => []
  | ProcPhase.waiting => []
  | ProcPhase.running taken _ => TEntry.u2 :: taken.map TEntry.s2
  | ProcPhase.done => TEntry.u2 :: stream2.map TEntry.s2

/- The inductive invariant of the two-send machine: the transcript is the
first turn's writes followed by the second turn's writes; a running
process holds `queryPromise` and has consumed a prefix of its stream; the
second turn only gets going once the first is completely done. -/
def PairInv (stream1 stream2 : List Nat) (c : PairConfig) : Prop :=
  c.transcript = emitted1 stream1 c.p1 ++ emitted2 stream2 c.p2 ∧
  (∀ taken rest, c.p1 = ProcPhase.running taken rest →
    stream1 = taken ++ rest ∧ c.queryHeld = some 1) ∧
  (∀ taken rest, c.p2 = ProcPhase.running taken rest →
    stream2 = taken ++ rest ∧ c.queryHeld = some 2) ∧
  c.p1 ≠ ProcPhase.waiting ∧
  (c.p2 ≠ ProcPhase.pending → c.p1 ≠ ProcPhase.pending) ∧
  (c.p2.isRunning = true ∨ c.p2 = ProcPhase.done → c.p1 = ProcPhase.done)

end ClaudeAgentKit

namespace ClaudeAgentKit

theorem extract_mkToolResultUserMessage (toolUseId content : String) (isError : Bool) :
    extractToolUseBlocks (mkToolResultUserMessage toolUseId content isError) = [] := rfl

theorem setBusyState_fst (st : SessionState) (b : Bool) :
    (setBusyState st b).1 = { st with busyState := b } := by
  unfold setBusyState
  split
  · next h =>
    have hb : st.busyState = b := by simpa using h
    cases st
    simp_all
  · rfl

theorem setLoadingState_fst (st : SessionState) (b : Bool) :
    (setLoadingState st b).1 = { st with loadingState := b } := by
  unfold setLoadingState
  split
  · next h =>
    have hb : st.loadingState = b := by simpa using h
    cases st
    simp_all
  · rfl

theorem updateSessionId_fst (st : SessionState) (cs : ClientStore) (sid : Option String) :
    (updateSessionId st cs sid).1 = { st with sessionId := sid } := by
  unfold updateSessionId
  split
  · next h =>
    have hb : st.sessionId = sid := by simpa using h
    cases st
    simp_all
  · rfl

theorem processIncomingMessage_fst (st : SessionState) (cs : ClientStore) (now : Int)
    (m : SDKMessage) :
    (processIncomingMessage st cs now m).1 =
      { st with
        sessionId := if m.session_id != "" then some m.session_id else st.sessionId,
        lastResultMessage := if m.type == "result" then some m else st.lastResultMessage,
        messageList := st.messageList ++ [m],
        lastModifiedTime := (extractTimestamp m.timestamp).getD now,
        busyState :=
          if m.type == "system" then (if m.subtype == "init" then true else st.busyState)
          else if m.type == "result" then false
          else st.busyState } := by
  unfold processIncomingMessage addNewMessage
  by_cases h1 : (m.session_id != "") = true <;>
    by_cases h2 : (m.type == "result") = true <;>
      by_cases h3 : (m.type == "system") = true <;>
        by_cases h4 : (m.subtype == "init") = true <;>
          simp_all [updateSessionId_fst, setBusyState_fst]

theorem overrideField_some (base : Option α) (v : α) :
    overrideField base (some v) = some v := rfl

theorem overrideField_none (base : Option α) :
    overrideField base none = base := rfl

theorem overrideField_assoc (a b c : Option α) :
    overrideField (overrideField a b) c = overrideField a (overrideField b c) := by
  cases c <;> cases b <;> rfl

/-- C4: `resumeFrom` is idempotent.  When the Session is already loaded for
the requested id (`sessionId = id` and `isLoaded`), a `resumeFrom(id)` call
returns immediately with the state untouched, no events, and zero Transcript
Store reads (the fourth component counts `loadMessages` calls) — so two
calls in a row perform `0 + 0 ≤ 1` reads and the second returns immediately
without re-fetching. -/
theorem c4_resumeFrom_idempotent (env : SysEnv) (store : TranscriptStore)
    (st : SessionState) (cs : ClientStore) (now : Int) (sid : String)
    (h1 : st.sessionId = some sid) (h2 : st.isLoaded = true) :
    resumeFrom env store st cs now sid = (st, cs, [], 0) ∧
    resumeFrom env store (resumeFrom env store st cs now sid).1
        (resumeFrom env store st cs now sid).2.1 now sid = (st, cs, [], 0) := by
  have hshort : resumeFrom env store st cs now sid = (st, cs, [], 0) := by
    unfold resumeFrom
    split
    · rfl
    · split
      · rfl
      · next hcond =>
        exact absurd (by simp [h1, h2]) hcond
  refine ⟨hshort, ?_⟩
  rw [hshort]
  exact hshort

/-- Witness for `c4_resumeFrom_idempotent` at a concrete loaded session. -/
theorem c4_resumeFrom_idempotent_witness :
    resumeFrom
        ⟨fun _ => false, none, none, none, fun _ b => b, fun _ b => b, fun s => s⟩
        ⟨fun _ => Except.ok []⟩
        { sessionId := some "sess-1", isLoaded := true } ⟨fun _ => none⟩ 0 "sess-1" =
      ({ sessionId := some "sess-1", isLoaded := true }, ⟨fun _ => none⟩, [], 0) ∧
    resumeFrom
        ⟨fun _ => false, none, none, none, fun _ b => b, fun _ b => b, fun s => s⟩
        ⟨fun _ => Except.ok []⟩
        (resumeFrom
          ⟨fun _ => false, none, none, none, fun _ b => b, fun _ b => b, fun s => s⟩
          ⟨fun _ => Except.ok []⟩
          { sessionId := some "sess-1", isLoaded := true } ⟨fun _ => none⟩ 0 "sess-1").1
        (resumeFrom
          ⟨fun _ => false, none, none, none, fun _ b => b, fun _ b => b, fun s => s⟩
          ⟨fun _ => Except.ok []⟩
          { sessionId := some "sess-1", isLoaded := true } ⟨fun _ => none⟩ 0 "sess-1").2.1
        0 "sess-1" =
      ({ sessionId := some "sess-1", isLoaded := true }, ⟨fun _ => none⟩, [], 0) :=
  c4_resumeFrom_idempotent _ _ _ _ 0 "sess-1" rfl rfl

/-- C6: explicitly clearing the working directory removes the key.  After
`setSDKOptions({ cwd: undefined })` on a session whose options carry
`cwd = "/a"` (or any previously set value), the stored options and the
effective options reported by `buildEffectiveOptions` contain no `cwd`
key at all: the default is not re-inherited and the old value is not
retained. -/
theorem c6_clear_cwd_removes_key (env : SysEnv) (st : SessionState) (a : String)
    (_hcwd : st.options.cwd = some a) :
    ((setSDKOptions env st { cwd := some none }).1).options.cwd = none ∧
    (buildEffectiveOptions (setSDKOptions env st { cwd := some none }).1).cwd = none := by
  constructor
  · rfl
  · simp [buildEffectiveOptions, setSDKOptions, createDefaultOptions,
      normalizeWorkspacePath, overrideField]

/-- Witness for `c6_clear_cwd_removes_key`: a session whose cwd was set to
`"/a"`, cleared against a file system where every directory exists. -/
theorem c6_clear_cwd_removes_key_witness :
    ((setSDKOptions ⟨fun _ => true, none, none, none, fun _ b => b, fun _ b => b, fun s => s⟩
        { options := { cwd := some "/a" } } { cwd := some none }).1).options.cwd = none ∧
    (buildEffectiveOptions
        (setSDKOptions ⟨fun _ => true, none, none, none, fun _ b => b, fun _ b => b, fun s => s⟩
          { options := { cwd := some "/a" } } { cwd := some none }).1).cwd = none :=
  c6_clear_cwd_removes_key _ _ "/a" rfl

/-- C8: a tool-result submission whose `toolUseId` is empty or trims to
empty is rejected before any turn is started: `sendToolResult` returns the
error without producing a new state, transcript entry, event, or Agent
Stream Client call (those exist only under an `ok` result). -/
theorem c8_empty_toolUseId_rejected (env : SysEnv) (st : SessionState) (cs : ClientStore)
    (now : Int) (stream : TurnStream) (toolUseId content : String) (isError : Bool)
    (htrim : jsTrim toolUseId = "") :
    sendToolResult env st cs now stream toolUseId content isError =
      Except.error "toolUseId is required" := by
  unfold sendToolResult
  simp [htrim]

/-- Witness for `c8_empty_toolUseId_rejected` on an all-whitespace id. -/
theorem c8_empty_toolUseId_rejected_witness :
    sendToolResult ⟨fun _ => true, none, none, none, fun _ b => b, fun _ b => b, fun s => s⟩
        {} ⟨fun _ => none⟩ 0 {} "  " "declined" true =
      Except.error "toolUseId is required" :=
  c8_empty_toolUseId_rejected _ _ _ _ _ "  " "declined" true rfl

theorem or_eq_overrideField (x y : Option α) : x.or y = overrideField y x := by
  cases x <;> rfl

theorem pumpMessages_messageList (now : Int) (msgs : List SDKMessage) :
    ∀ (st : SessionState) (cs : ClientStore),
      (pumpMessages now st cs msgs).1.messageList = st.messageList ++ msgs := by
  induction msgs with
  | nil => intro st cs; simp [pumpMessages]
  | cons m rest ih =>
    intro st cs
    simp [pumpMessages, ih, processIncomingMessage_fst]

theorem pumpMessages_error (now : Int) (msgs : List SDKMessage) :
    ∀ (st : SessionState) (cs : ClientStore),
      (pumpMessages now st cs msgs).1.error = st.error := by
  induction msgs with
  | nil => intro st cs; simp [pumpMessages]
  | cons m rest ih =>
    intro st cs
    simp [pumpMessages, ih, processIncomingMessage_fst]

theorem pumpMessages_clients (now : Int) (msgs : List SDKMessage) :
    ∀ (st : SessionState) (cs : ClientStore),
      (pumpMessages now st cs msgs).1.clients = st.clients := by
  induction msgs with
  | nil => intro st cs; simp [pumpMessages]
  | cons m rest ih =>
    intro st cs
    simp [pumpMessages, ih, processIncomingMessage_fst]

theorem pumpMessages_lastResult (now : Int) (msgs : List SDKMessage) :
    ∀ (st : SessionState) (cs : ClientStore),
      (pumpMessages now st cs msgs).1.lastResultMessage =
        overrideField st.lastResultMessage (lastResultIn msgs) := by
  induction msgs with
  | nil => intro st cs; simp [pumpMessages, lastResultIn, overrideField]
  | cons m rest ih =>
    intro st cs
    have hsplit : lastResultIn (m :: rest) =
        overrideField (if (m.type == "result") = true then some m else none)
          (lastResultIn rest) := by
      unfold lastResultIn
      rw [List.reverse_cons, List.find?_append, or_eq_overrideField]
      congr 1
      cases hb : (m.type == "result") with
      | true =>
        have h2 : m.type = "result" := by simpa using hb
        simp [List.find?, hb, h2]
      | false =>
        have h2 : ¬ m.type = "result" := by simpa using hb
        simp [List.find?, hb, h2]
    rw [hsplit, ← overrideField_assoc]
    rw [pumpMessages, ih]
    congr 1
    rw [processIncomingMessage_fst]
    by_cases h : (m.type == "result") = true <;> simp [h, overrideField]

theorem overrideField_none_base (x : Option α) : overrideField none x = x := by
  cases x <;> rfl

theorem seedSummary_messageList (st : SessionState) (x : Option String) :
    (seedSummary st x).messageList = st.messageList := by
  unfold seedSummary; cases x <;> repeat' split <;> rfl

theorem seedSummary_error (st : SessionState) (x : Option String) :
    (seedSummary st x).error = st.error := by
  unfold seedSummary; cases x <;> repeat' split <;> rfl

theorem seedSummary_lastResultMessage (st : SessionState) (x : Option String) :
    (seedSummary st x).lastResultMessage = st.lastResultMessage := by
  unfold seedSummary; cases x <;> repeat' split <;> rfl

theorem seedSummary_clients (st : SessionState) (x : Option String) :
    (seedSummary st x).clients = st.clients := by
  unfold seedSummary; cases x <;> repeat' split <;> rfl

theorem applyResumeCwdFixup_messageList (env : SysEnv) (st : SessionState) :
    (applyResumeCwdFixup env st).1.messageList = st.messageList := by
  unfold applyResumeCwdFixup
  repeat' split
  all_goals rfl

theorem applyResumeCwdFixup_error (env : SysEnv) (st : SessionState) :
    (applyResumeCwdFixup env st).1.error = st.error := by
  unfold applyResumeCwdFixup
  repeat' split
  all_goals rfl

theorem applyResumeCwdFixup_lastResultMessage (env : SysEnv) (st : SessionState) :
    (applyResumeCwdFixup env st).1.lastResultMessage = st.lastResultMessage := by
  unfold applyResumeCwdFixup
  repeat' split
  all_goals rfl

theorem applyResumeCwdFixup_clients (env : SysEnv) (st : SessionState) :
    (applyResumeCwdFixup env st).1.clients = st.clients := by
  unfold applyResumeCwdFixup
  repeat' split
  all_goals rfl

theorem recordStreamError_messageList (st : SessionState) (t : Option String) :
    (recordStreamError st t).messageList = st.messageList := by
  unfold recordStreamError
  repeat' split
  all_goals rfl

theorem recordStreamError_clients (st : SessionState) (t : Option String) :
    (recordStreamError st t).clients = st.clients := by
  unfold recordStreamError
  repeat' split
  all_goals rfl

theorem recordStreamError_error (st : SessionState) (t : Option String) :
    (recordStreamError st t).error =
      (match t with
       | some e =>
         if shouldSuppressExitErrorAfterResult e st.lastResultMessage then st.error
         else some e
       | none => st.error) := by
  unfold recordStreamError
  repeat' split
  all_goals rfl

theorem startQuery_messageList (env : SysEnv) (st : SessionState) (cs : ClientStore)
    (now : Int) (stream : TurnStream) (um : SDKMessage) (stext : Option String) :
    (startQueryWithUserMessage env st cs now stream um stext).1.messageList =
      st.messageList ++ um :: stream.yielded := by
  unfold startQueryWithUserMessage
  simp [addNewMessage, setBusyState_fst, pumpMessages_messageList,
    seedSummary_messageList, applyResumeCwdFixup_messageList, recordStreamError_messageList]

theorem startQuery_busyState (env : SysEnv) (st : SessionState) (cs : ClientStore)
    (now : Int) (stream : TurnStream) (um : SDKMessage) (stext : Option String) :
    (startQueryWithUserMessage env st cs now stream um stext).1.busyState = false := by
  unfold startQueryWithUserMessage
  simp only [setBusyState_fst]

theorem startQuery_error (env : SysEnv) (st : SessionState) (cs : ClientStore)
    (now : Int) (stream : TurnStream) (um : SDKMessage) (stext : Option String) :
    (startQueryWithUserMessage env st cs now stream um stext).1.error =
      (match stream.thrown with
       | some e =>
         if shouldSuppressExitErrorAfterResult e (lastResultIn stream.yielded) then st.error
         else some e
       | none => st.error) := by
  unfold startQueryWithUserMessage
  simp [setBusyState_fst, recordStreamError_error, pumpMessages_lastResult,
    pumpMessages_error, applyResumeCwdFixup_lastResultMessage, applyResumeCwdFixup_error,
    seedSummary_error, addNewMessage, overrideField_none_base]

theorem findLatest_last_exit (pre : List SDKMessage) (m : SDKMessage) (tool : ToolUseRef)
    (htool : (extractToolUseBlocks m).find? (fun t => t.name == "ExitPlanMode") = some tool) :
    findLatestPendingExitPlanModeToolUseId (pre ++ [m]) = some tool.id := by
  unfold findLatestPendingExitPlanModeToolUseId
  rw [show (pre ++ [m]).reverse = m :: pre.reverse by simp]
  rw [findPendingScan, htool]
  rfl

/-- C2: for a Session whose transcript ends in a plan-exit (`ExitPlanMode`)
tool-use with no matching tool-result, `send("execute")` performs exactly
the same state transition, client-store update and event sequence
(including the single Agent Stream Client call) as
`sendToolResult(thatToolUseId, "User approved the plan", false)`; in
particular (second conjunct) the one user-turn message it appends is the
synthetic tool-result message, not a free-text message, so no free-text
turn is started. -/
theorem c2_execute_redirects_to_toolResult (env : SysEnv) (st : SessionState)
    (cs : ClientStore) (now : Int) (stream : TurnStream)
    (buildContent : String → List AttachmentPayload → List ContentBlock)
    (atts : List AttachmentPayload) (pre : List SDKMessage) (m : SDKMessage)
    (tool : ToolUseRef)
    (hmsgs : st.messageList = pre ++ [m])
    (htool : (extractToolUseBlocks m).find? (fun t => t.name == "ExitPlanMode") = some tool) :
    send env st cs now stream buildContent "execute" atts =
      sendToolResult env st cs now stream tool.id "User approved the plan" false ∧
    (jsTrim tool.id ≠ "" →
      ∃ out, send env st cs now stream buildContent "execute" atts = Except.ok out ∧
        out.1.messageList = st.messageList ++
          mkToolResultUserMessage (jsTrim tool.id) "User approved the plan" false
            :: stream.yielded) := by
  have hfind : findLatestPendingExitPlanModeToolUseId st.messageList = some tool.id := by
    rw [hmsgs]
    exact findLatest_last_exit pre m tool htool
  have heq : send env st cs now stream buildContent "execute" atts =
      sendToolResult env st cs now stream tool.id "User approved the plan" false := by
    unfold send
    rw [show isApprovalPrompt "execute" = true from by decide]
    simp only [if_true, hfind]
  refine ⟨heq, ?_⟩
  intro htrim
  rw [heq]
  simp only [sendToolResult]
  rw [show (jsTrim tool.id == "") = false from by simp [htrim]]
  simp only [Bool.false_eq_true, if_false]
  exact ⟨_, rfl, startQuery_messageList env st cs now stream
    (mkToolResultUserMessage (jsTrim tool.id) "User approved the plan" false) none⟩

/-- Witness for `c2_execute_redirects_to_toolResult`: a transcript that is
exactly one plan-exit tool-use message. -/
theorem c2_execute_redirects_to_toolResult_witness :
    send trivialEnv { messageList := [] ++ [exitPlanToolUseMessage] } emptyClientStore 0 {}
        (fun _ _ => []) "execute" [] =
      sendToolResult trivialEnv { messageList := [] ++ [exitPlanToolUseMessage] }
        emptyClientStore 0 {} (ToolUseRef.id ⟨"toolu_01", "ExitPlanMode"⟩)
        "User approved the plan" false ∧
    (jsTrim (ToolUseRef.id ⟨"toolu_01", "ExitPlanMode"⟩) ≠ "" →
      ∃ out, send trivialEnv { messageList := [] ++ [exitPlanToolUseMessage] }
          emptyClientStore 0 {} (fun _ _ => []) "execute" [] = Except.ok out ∧
        out.1.messageList = SessionState.messageList { messageList := [] ++ [exitPlanToolUseMessage] } ++
          mkToolResultUserMessage (jsTrim (ToolUseRef.id ⟨"toolu_01", "ExitPlanMode"⟩))
            "User approved the plan" false :: TurnStream.yielded {}) :=
  c2_execute_redirects_to_toolResult trivialEnv _ emptyClientStore 0 {} (fun _ _ => []) []
    [] exitPlanToolUseMessage ⟨"toolu_01", "ExitPlanMode"⟩ rfl (by decide)

/-- C9: when the Agent Stream Client's stream throws, the turn records the
thrown error as the Session's error field, except when the last-received
result message carries an error payload and the thrown error is the known
exit-code-after-reported-result condition, in which case the error field is
left untouched; in every case the busy flag is cleared, and the turn
returns normally (the embedding is a total function: nothing is thrown past
the Session boundary). -/
theorem c9_stream_error_recorded (env : SysEnv) (st : SessionState) (cs : ClientStore)
    (now : Int) (stream : TurnStream) (um : SDKMessage) (stext : Option String)
    (e : String) (hthrow : stream.thrown = some e) :
    (startQueryWithUserMessage env st cs now stream um stext).1.busyState = false ∧
    (startQueryWithUserMessage env st cs now stream um stext).1.error =
      (if shouldSuppressExitErrorAfterResult e (lastResultIn stream.yielded) then st.error
       else some e) := by
  refine ⟨startQuery_busyState env st cs now stream um stext, ?_⟩
  rw [startQuery_error, hthrow]

/-- Witness for `c9_stream_error_recorded`: the stream yields one
error-carrying result message, then throws the exit-code-1 error; the
suppression branch applies and the error field stays unset. -/
theorem c9_stream_error_recorded_witness :
    (startQueryWithUserMessage trivialEnv {} emptyClientStore 0
        { yielded := [errorResultMessage],
          thrown := some "Claude Code process exited with code 1" }
        declineToolResultMessage none).1.busyState = false ∧
    (startQueryWithUserMessage trivialEnv {} emptyClientStore 0
        { yielded := [errorResultMessage],
          thrown := some "Claude Code process exited with code 1" }
        declineToolResultMessage none).1.error =
      (if shouldSuppressExitErrorAfterResult "Claude Code process exited with code 1"
          (lastResultIn [errorResultMessage])
       then SessionState.error {} else some "Claude Code process exited with code 1") :=
  c9_stream_error_recorded trivialEnv {} emptyClientStore 0
    { yielded := [errorResultMessage],
      thrown := some "Claude Code process exited with code 1" }
    declineToolResultMessage none "Claude Code process exited with code 1" rfl

theorem setBusyState_events (st : SessionState) (b : Bool) :
    ∀ e ∈ (setBusyState st b).2, e = SessionEvent.stateChanged := by
  unfold setBusyState; split <;> simp

theorem setLoadingState_events (st : SessionState) (b : Bool) :
    ∀ e ∈ (setLoadingState st b).2, e = SessionEvent.stateChanged := by
  unfold setLoadingState; split <;> simp

/-- C5: when the Transcript Store returns zero messages for the target id,
`loadFromServer` emits only state-change events — in particular no
`messages_updated` broadcast reaches any subscriber — while the in-memory
transcript is reset to empty and the loaded flag is not set (it keeps its
previous value). -/
theorem c5_empty_load_no_broadcast (env : SysEnv) (store : TranscriptStore)
    (st : SessionState) (cs : ClientStore) (now : Int) (target : String)
    (hload : store.load target = Except.ok []) :
    ∃ stOut csOut evs,
      loadFromServer env store st cs now (some target) = some (stOut, csOut, evs, 1) ∧
      (∀ e ∈ evs, e = SessionEvent.stateChanged) ∧
      stOut.messageList = [] ∧
      stOut.isLoaded = st.isLoaded := by
  unfold loadFromServer
  simp only [show overrideField st.sessionId (some target) = some target from rfl]
  rw [hload]
  refine ⟨_, _, _, rfl, ?_, ?_, ?_⟩
  · intro e he
    simp only [List.mem_append] at he
    rcases he with (he | he) | he
    · exact setLoadingState_events _ _ e he
    · exact setBusyState_events _ _ e he
    · exact setLoadingState_events _ _ e he
  · simp [setBusyState_fst, setLoadingState_fst]
  · simp [setBusyState_fst, setLoadingState_fst, updateSessionId_fst]

/-- Witness for `c5_empty_load_no_broadcast` on a store holding nothing. -/
theorem c5_empty_load_no_broadcast_witness :
    ∃ stOut csOut evs,
      loadFromServer trivialEnv ⟨fun _ => Except.ok []⟩
          { messageList := [declineToolResultMessage], busyState := true }
          emptyClientStore 0 (some "sess-9") = some (stOut, csOut, evs, 1) ∧
      (∀ e ∈ evs, e = SessionEvent.stateChanged) ∧
      stOut.messageList = [] ∧
      stOut.isLoaded =
        SessionState.isLoaded { messageList := [declineToolResultMessage], busyState := true } :=
  c5_empty_load_no_broadcast trivialEnv ⟨fun _ => Except.ok []⟩
    { messageList := [declineToolResultMessage], busyState := true }
    emptyClientStore 0 "sess-9" rfl

theorem updateSessionId_snd_sync (st : SessionState) (cs : ClientStore)
    (sid : Option String) (hne : st.sessionId ≠ sid) (c : Nat) (hc : c ∈ st.clients) :
    (updateSessionId st cs sid).2.sid c = sid := by
  unfold updateSessionId
  split
  · next h => exact absurd (by simpa using h) hne
  · simp [syncClientSessionIds, hc]

theorem processIncomingMessage_snd (st : SessionState) (cs : ClientStore) (now : Int)
    (m : SDKMessage) :
    (processIncomingMessage st cs now m).2.1 =
      (if (m.session_id != "") = true then updateSessionId st cs (some m.session_id)
       else (st, cs)).2 := rfl

theorem setSDKOptions_clients (env : SysEnv) (st : SessionState) (o : PartialSDKOptions) :
    (setSDKOptions env st o).1.clients = st.clients := rfl

theorem setSDKOptions_sessionId (env : SysEnv) (st : SessionState) (o : PartialSDKOptions) :
    (setSDKOptions env st o).1.sessionId = st.sessionId := rfl

theorem setMessages_clients (env : SysEnv) (st : SessionState) (msgs : List SDKMessage) :
    (setMessages env st msgs).1.clients = st.clients := by
  unfold setMessages
  dsimp only
  repeat' split
  all_goals simp [setSDKOptions_clients]

theorem setMessages_sessionId (env : SysEnv) (st : SessionState) (msgs : List SDKMessage) :
    (setMessages env st msgs).1.sessionId = st.sessionId := by
  unfold setMessages
  dsimp only
  repeat' split
  all_goals simp [setSDKOptions_sessionId]

theorem loadFromServer_sync (env : SysEnv) (store : TranscriptStore) (st : SessionState)
    (cs : ClientStore) (now : Int) (target : String)
    (out : SessionState × ClientStore × List SessionEvent × Nat)
    (hne : st.sessionId ≠ some target)
    (hout : loadFromServer env store st cs now (some target) = some out) :
    ∀ c ∈ out.1.clients, out.2.1.sid c = out.1.sessionId := by
  unfold loadFromServer at hout
  simp only [show overrideField st.sessionId (some target) = some target from rfl] at hout
  intro c hc
  rcases hcase : store.load target with e | msgs
  · simp only [hcase] at hout
    have hsub := Option.some.inj hout
    subst hsub
    simp only [setLoadingState_fst, updateSessionId_fst] at hc ⊢
    exact updateSessionId_snd_sync st cs (some target) hne c (by simpa using hc)
  · simp only [hcase] at hout
    by_cases hlen : (msgs.length == 0) = true
    · rw [if_pos hlen] at hout
      have hsub := Option.some.inj hout
      subst hsub
      simp only [setBusyState_fst, setLoadingState_fst, updateSessionId_fst] at hc ⊢
      exact updateSessionId_snd_sync st cs (some target) hne c (by simpa using hc)
    · rw [if_neg hlen] at hout
      have hsub := Option.some.inj hout
      subst hsub
      simp only [setBusyState_fst, setLoadingState_fst, updateSessionId_fst,
        setMessages_clients, setMessages_sessionId] at hc ⊢
      exact updateSessionId_snd_sync st cs (some target) hne c (by
        simpa [setMessages_clients] using hc)

theorem subscribe_sync (st : SessionState) (cs : ClientStore) (client : Nat)
    (hnot : client ∉ st.clients)
    (hsync : ∀ c2 ∈ st.clients, cs.sid c2 = st.sessionId) :
    ∀ c2 ∈ (subscribe st cs client).1.clients,
      (subscribe st cs client).2.1.sid c2 = (subscribe st cs client).1.sessionId := by
  unfold subscribe
  rw [if_neg hnot]
  intro c2 hc2
  rcases List.mem_cons.mp hc2 with rfl | hmem
  · simp
  · have hne : c2 ≠ client := fun h => hnot (h ▸ hmem)
    simp only []
    rw [show (c2 == client) = false by simpa using hne]
    simpa using hsync c2 hmem

/-- C10 (implicit invariant): the Session writes its id into all subscribed
client objects.  After `processIncomingMessage` on a message carrying a
(different) `session_id`, and after `loadFromServer` adopting a (different)
target id, every client in the subscriber set has its `sessionId` field
equal to the Session's new id — unconditionally, because `updateSessionId`
calls `syncClientSessionIds` over the whole subscriber set.  `subscribe`
writes the id into the newly attached client and keeps an already
synchronized subscriber set synchronized. -/
theorem c10_clients_session_id_synced :
    (∀ (st : SessionState) (cs : ClientStore) (now : Int) (m : SDKMessage),
       (m.session_id != "") = true → st.sessionId ≠ some m.session_id →
       ∀ c ∈ (processIncomingMessage st cs now m).1.clients,
         (processIncomingMessage st cs now m).2.1.sid c =
           (processIncomingMessage st cs now m).1.sessionId) ∧
    (∀ (env : SysEnv) (store : TranscriptStore) (st : SessionState) (cs : ClientStore)
       (now : Int) (target : String)
       (out : SessionState × ClientStore × List SessionEvent × Nat),
       st.sessionId ≠ some target →
       loadFromServer env store st cs now (some target) = some out →
       ∀ c ∈ out.1.clients, out.2.1.sid c = out.1.sessionId) ∧
    (∀ (st : SessionState) (cs : ClientStore) (client : Nat),
       client ∉ st.clients →
       (∀ c2 ∈ st.clients, cs.sid c2 = st.sessionId) →
       ∀ c2 ∈ (subscribe st cs client).1.clients,
         (subscribe st cs client).2.1.sid c2 = (subscribe st cs client).1.sessionId) := by
  refine ⟨?_, loadFromServer_sync, subscribe_sync⟩
  intro st cs now m hsid hne c hc
  rw [processIncomingMessage_snd, if_pos hsid]
  rw [processIncomingMessage_fst] at hc ⊢
  simp only [hsid, if_true] at hc ⊢
  exact updateSessionId_snd_sync st cs (some m.session_id) hne c (by simpa using hc)

/-- Witness for `c10_clients_session_id_synced`: each conjunct applied at a
session with one subscribed client (id 3) receiving a message carrying a
new session id, an empty-store load adopting a new id, and a fresh
subscription. -/
theorem c10_clients_session_id_synced_witness :
    (∀ c ∈ (processIncomingMessage { clients := [3] } emptyClientStore 0
        { type := "system", session_id := "sess-2" }).1.clients,
      (processIncomingMessage { clients := [3] } emptyClientStore 0
          { type := "system", session_id := "sess-2" }).2.1.sid c =
        (processIncomingMessage { clients := [3] } emptyClientStore 0
            { type := "system", session_id := "sess-2" }).1.sessionId) ∧
    (∀ c ∈ ((loadFromServer trivialEnv ⟨fun _ => Except.ok []⟩ { clients := [3] }
          emptyClientStore 0 (some "sess-2")).getD ({}, emptyClientStore, [], 0)).1.clients,
      ((loadFromServer trivialEnv ⟨fun _ => Except.ok []⟩ { clients := [3] }
          emptyClientStore 0 (some "sess-2")).getD ({}, emptyClientStore, [], 0)).2.1.sid c =
        ((loadFromServer trivialEnv ⟨fun _ => Except.ok []⟩ { clients := [3] }
            emptyClientStore 0 (some "sess-2")).getD ({}, emptyClientStore, [], 0)).1.sessionId) ∧
    (∀ c2 ∈ (subscribe {} emptyClientStore 3).1.clients,
      (subscribe {} emptyClientStore 3).2.1.sid c2 =
        (subscribe {} emptyClientStore 3).1.sessionId) :=
  ⟨c10_clients_session_id_synced.1 { clients := [3] } emptyClientStore 0
      { type := "system", session_id := "sess-2" } (by decide) (by decide),
   c10_clients_session_id_synced.2.1 trivialEnv ⟨fun _ => Except.ok []⟩ { clients := [3] }
     emptyClientStore 0 "sess-2" _ (by decide) rfl,
   c10_clients_session_id_synced.2.2 {} emptyClientStore 3 (fun h => absurd h (by decide))
     (fun c2 hc2 => absurd hc2 (List.not_mem_nil c2))⟩

theorem pairInv_init (stream1 stream2 : List Nat) : PairInv stream1 stream2 initPairConfig := by
  refine ⟨rfl, ?_, ?_, ?_, ?_, ?_⟩
  · intro taken rest h; simp [initPairConfig] at h
  · intro taken rest h; simp [initPairConfig] at h
  · simp [initPairConfig]
  · intro h; exact absurd rfl h
  · intro h; simp [initPairConfig, ProcPhase.isRunning] at h

theorem p1_done_of_queryHeld_none (stream1 : List Nat) (c : PairConfig)
    (hrun1 : ∀ taken rest, c.p1 = ProcPhase.running taken rest →
      stream1 = taken ++ rest ∧ c.queryHeld = some 1)
    (hnw1 : c.p1 ≠ ProcPhase.waiting) (hne : c.p1 ≠ ProcPhase.pending)
    (hq : c.queryHeld = none) : c.p1 = ProcPhase.done := by
  cases hcp : c.p1 with
  | pending => exact absurd hcp hne
  | waiting => exact absurd hcp hnw1
  | running taken rest =>
    have hqq := (hrun1 taken rest hcp).2
    rw [hq] at hqq
    exact Option.noConfusion hqq
  | done => rfl

theorem pairInv_step (stream1 stream2 : List Nat) (c c2 : PairConfig)
    (hinv : PairInv stream1 stream2 c) (hstep : PairStep stream1 stream2 c c2) :
    PairInv stream1 stream2 c2 := by
  obtain ⟨htr, hrun1, hrun2, hnw1, hord, hdone⟩ := hinv
  cases hstep with
  | issue1Start h1 h2 =>
    have hp2 : c.p2 = ProcPhase.pending := by
      by_contra hne
      exact hord hne h1
    refine ⟨?_, ?_, ?_, ?_, ?_, ?_⟩
    · show c.transcript ++ [TEntry.u1] =
        emitted1 stream1 (ProcPhase.running [] stream1) ++ emitted2 stream2 c.p2
      rw [htr, h1, hp2]
      simp [emitted1, emitted2]
    · intro taken rest h
      have h' : ProcPhase.running [] stream1 = ProcPhase.running taken rest := h
      injection h' with ha hb
      subst ha
      subst hb
      exact ⟨rfl, rfl⟩
    · intro taken rest h
      have h' : c.p2 = ProcPhase.running taken rest := h
      rw [hp2] at h'
      exact absurd h' (by simp)
    · show ProcPhase.running [] stream1 ≠ ProcPhase.waiting
      simp
    · intro hne
      exact absurd hp2 hne
    · intro h
      have h' : c.p2.isRunning = true ∨ c.p2 = ProcPhase.done := h
      rw [hp2] at h'
      simp [ProcPhase.isRunning] at h'
  | issue2Wait h1 h2 h3 =>
    refine ⟨?_, hrun1, ?_, hnw1, fun _ => h2, ?_⟩
    · show c.transcript = emitted1 stream1 c.p1 ++ emitted2 stream2 ProcPhase.waiting
      rw [htr, h1]
      simp [emitted2]
    · intro taken rest h
      have h' : ProcPhase.waiting = ProcPhase.running taken rest := h
      exact absurd h' (by simp)
    · intro h
      have h' : ProcPhase.waiting.isRunning = true ∨ ProcPhase.waiting = ProcPhase.done := h
      simp [ProcPhase.isRunning] at h'
  | issue2Start h1 h2 h3 =>
    have hp1 : c.p1 = ProcPhase.done := p1_done_of_queryHeld_none stream1 c hrun1 hnw1 h2 h3
    refine ⟨?_, ?_, ?_, hnw1, fun _ => h2, fun _ => hp1⟩
    · show c.transcript ++ [TEntry.u2] =
        emitted1 stream1 c.p1 ++ emitted2 stream2 (ProcPhase.running [] stream2)
      rw [htr, h1, hp1]
      simp [emitted1, emitted2]
    · intro taken rest h
      have h' : c.p1 = ProcPhase.running taken rest := h
      rw [hp1] at h'
      exact absurd h' (by simp)
    · intro taken rest h
      have h' : ProcPhase.running [] stream2 = ProcPhase.running taken rest := h
      injection h' with ha hb
      subst ha
      subst hb
      exact ⟨rfl, rfl⟩
  | wake2 h1 h2 =>
    have hp2ne : c.p2 ≠ ProcPhase.pending := by rw [h1]; simp
    have hp1 : c.p1 = ProcPhase.done :=
      p1_done_of_queryHeld_none stream1 c hrun1 hnw1 (hord hp2ne) h2
    refine ⟨?_, ?_, ?_, hnw1, fun _ => hord hp2ne, fun _ => hp1⟩
    · show c.transcript ++ [TEntry.u2] =
        emitted1 stream1 c.p1 ++ emitted2 stream2 (ProcPhase.running [] stream2)
      rw [htr, h1, hp1]
      simp [emitted1, emitted2]
    · intro taken rest h
      have h' : c.p1 = ProcPhase.running taken rest := h
      rw [hp1] at h'
      exact absurd h' (by simp)
    · intro taken rest h
      have h' : ProcPhase.running [] stream2 = ProcPhase.running taken rest := h
      injection h' with ha hb
      subst ha
      subst hb
      exact ⟨rfl, rfl⟩
  | yield1 taken k rest h =>
    obtain ⟨hs, hq⟩ := hrun1 taken (k :: rest) h
    have hp2e : emitted2 stream2 c.p2 = [] := by
      cases hcp : c.p2 with
      | pending => rfl
      | waiting => rfl
      | running a b =>
        have hd := hdone (Or.inl (by rw [hcp]; rfl))
        rw [hd] at h
        exact absurd h (by simp)
      | done =>
        have hd := hdone (Or.inr hcp)
        rw [hd] at h
        exact absurd h (by simp)
    refine ⟨?_, ?_, ?_, by simp, fun _ => by simp, ?_⟩
    · show c.transcript ++ [TEntry.s1 k] =
        emitted1 stream1 (ProcPhase.running (taken ++ [k]) rest) ++ emitted2 stream2 c.p2
      rw [htr, h, hp2e]
      simp [emitted1]
    · intro t r hh
      have h' : ProcPhase.running (taken ++ [k]) rest = ProcPhase.running t r := hh
      injection h' with ha hb
      subst ha
      subst hb
      refine ⟨?_, hq⟩
      rw [hs]
      simp
    · intro t r hh
      have hh' : c.p2 = ProcPhase.running t r := hh
      have hd := hdone (Or.inl (by rw [hh']; rfl))
      rw [hd] at h
      exact absurd h (by simp)
    · intro hh
      have hh' : c.p2.isRunning = true ∨ c.p2 = ProcPhase.done := hh
      have hd := hdone hh'
      rw [hd] at h
      exact absurd h (by simp)
  | finish1 taken h =>
    obtain ⟨hs, hq⟩ := hrun1 taken [] h
    have hp2e : emitted2 stream2 c.p2 = [] := by
      cases hcp : c.p2 with
      | pending => rfl
      | waiting => rfl
      | running a b =>
        have hd := hdone (Or.inl (by rw [hcp]; rfl))
        rw [hd] at h
        exact absurd h (by simp)
      | done =>
        have hd := hdone (Or.inr hcp)
        rw [hd] at h
        exact absurd h (by simp)
    refine ⟨?_, ?_, ?_, by simp, fun _ => by simp, fun _ => rfl⟩
    · show c.transcript = emitted1 stream1 ProcPhase.done ++ emitted2 stream2 c.p2
      rw [htr, h, hp2e, hs]
      simp [emitted1]
    · intro t r hh
      have h' : ProcPhase.done = ProcPhase.running t r := hh
      exact absurd h' (by simp)
    · intro t r hh
      have hh' : c.p2 = ProcPhase.running t r := hh
      have hd := hdone (Or.inl (by rw [hh']; rfl))
      rw [hd] at h
      exact absurd h (by simp)
  | yield2 taken k rest h =>
    obtain ⟨hs2, hq2⟩ := hrun2 taken (k :: rest) h
    have hp1 : c.p1 = ProcPhase.done := hdone (Or.inl (by rw [h]; rfl))
    refine ⟨?_, ?_, ?_, hnw1, fun _ => by rw [hp1]; simp, fun _ => hp1⟩
    · show c.transcript ++ [TEntry.s2 k] =
        emitted1 stream1 c.p1 ++ emitted2 stream2 (ProcPhase.running (taken ++ [k]) rest)
      rw [htr, h]
      simp [emitted2]
    · intro t r hh
      have h' : c.p1 = ProcPhase.running t r := hh
      rw [hp1] at h'
      exact absurd h' (by simp)
    · intro t r hh
      have h' : ProcPhase.running (taken ++ [k]) rest = ProcPhase.running t r := hh
      injection h' with ha hb
      subst ha
      subst hb
      refine ⟨?_, hq2⟩
      rw [hs2]
      simp
  | finish2 taken h =>
    obtain ⟨hs2, hq2⟩ := hrun2 taken [] h
    have hp1 : c.p1 = ProcPhase.done := hdone (Or.inl (by rw [h]; rfl))
    refine ⟨?_, ?_, ?_, hnw1, fun _ => by rw [hp1]; simp, fun _ => hp1⟩
    · show c.transcript = emitted1 stream1 c.p1 ++ emitted2 stream2 ProcPhase.done
      rw [htr, h, hs2]
      simp [emitted2]
    · intro t r hh
      have h' : c.p1 = ProcPhase.running t r := hh
      rw [hp1] at h'
      exact absurd h' (by simp)
    · intro t r hh
      have h' : ProcPhase.done = ProcPhase.running t r := hh
      exact absurd h' (by simp)

theorem pairInv_reachable (stream1 stream2 : List Nat) (c : PairConfig)
    (h : PairReachable stream1 stream2 c) : PairInv stream1 stream2 c := by
  induction h with
  | init => exact pairInv_init stream1 stream2
  | step d d2 hr hs ih => exact pairInv_step stream1 stream2 d d2 ih hs

theorem append_cons_unique (x : α) :
    ∀ (a a2 b b2 : List α), a ++ x :: b = a2 ++ x :: b2 → x ∉ a → x ∉ b →
      a = a2 ∧ b = b2 := by
  intro a
  induction a with
  | nil =>
    intro a2 b b2 h hxa hxb
    cases a2 with
    | nil =>
      simp only [List.nil_append] at h
      injection h with h1 h2
      exact ⟨rfl, h2⟩
    | cons y ys =>
      simp only [List.nil_append, List.cons_append] at h
      injection h with h1 h2
      subst h1
      rw [h2] at hxb
      exact absurd (List.mem_append_right ys (List.mem_cons_self x b2)) hxb
  | cons z zs ih =>
    intro a2 b b2 h hxa hxb
    cases a2 with
    | nil =>
      simp only [List.cons_append, List.nil_append] at h
      injection h with h1 h2
      subst h1
      exact absurd (List.mem_cons_self z zs) hxa
    | cons y ys =>
      simp only [List.cons_append] at h
      injection h with h1 h2
      subst h1
      have hxa2 : x ∉ zs := fun hm => hxa (List.mem_cons_of_mem z hm)
      obtain ⟨he1, he2⟩ := ih ys b b2 h2 hxa2 hxb
      exact ⟨by rw [he1], he2⟩

/-- C3: turn serialization for a pair of `send` calls issued in succession.
In every reachable configuration of the two-send machine, (a) the two
turns are never simultaneously in flight (at most one turn holds
`queryPromise`), and (b) wherever the second call's user-turn entry sits
in the transcript, everything before it is exactly the first turn's user
entry followed by its complete stream — the second turn's writes begin
strictly after the first turn's stream has fully drained, and the two
turns' writes never interleave. -/
theorem c3_pair_sends_serialized (stream1 stream2 : List Nat) (c : PairConfig)
    (h : PairReachable stream1 stream2 c) :
    ¬(c.p1.isRunning = true ∧ c.p2.isRunning = true) ∧
    (∀ pre post, c.transcript = pre ++ TEntry.u2 :: post →
      pre = TEntry.u1 :: stream1.map TEntry.s1 ∧ ∀ e ∈ post, e.isTurn2 = true) := by
  obtain ⟨htr, hrun1, hrun2, hnw1, hord, hdone⟩ := pairInv_reachable stream1 stream2 c h
  constructor
  · rintro ⟨hr1, hr2⟩
    have hp1 := hdone (Or.inl hr2)
    rw [hp1] at hr1
    simp [ProcPhase.isRunning] at hr1
  · intro pre post hsplit
    have hcomb : pre ++ TEntry.u2 :: post = emitted1 stream1 c.p1 ++ emitted2 stream2 c.p2 :=
      hsplit.symm.trans htr
    have hu2 : TEntry.u2 ∈ pre ++ TEntry.u2 :: post :=
      List.mem_append_right pre (List.mem_cons_self _ _)
    have hne1 : ∀ p : ProcPhase, TEntry.u2 ∉ emitted1 stream1 p := by
      intro p
      cases p <;> simp [emitted1]
    have hp2 : c.p2.isRunning = true ∨ c.p2 = ProcPhase.done := by
      rcases hcp : c.p2 with _ | _ | ⟨a, b⟩ | _
      · exfalso
        rw [hcp] at hcomb
        simp only [emitted2, List.append_nil] at hcomb
        rw [hcomb] at hu2
        exact hne1 c.p1 hu2
      · exfalso
        rw [hcp] at hcomb
        simp only [emitted2, List.append_nil] at hcomb
        rw [hcomb] at hu2
        exact hne1 c.p1 hu2
      · exact Or.inl rfl
      · exact Or.inr rfl
    have hp1 := hdone hp2
    have hne1d : TEntry.u2 ∉ TEntry.u1 :: List.map TEntry.s1 stream1 := by simp
    rcases hcase : c.p2 with _ | _ | ⟨taken, rest⟩ | _
    · rw [hcase] at hp2
      simp [ProcPhase.isRunning] at hp2
    · rw [hcase] at hp2
      simp [ProcPhase.isRunning] at hp2
    · rw [hp1, hcase] at hcomb
      simp only [emitted1, emitted2] at hcomb
      have hpost : TEntry.u2 ∉ List.map TEntry.s2 taken := by simp
      obtain ⟨hpre, hpost2⟩ := append_cons_unique TEntry.u2
        (TEntry.u1 :: List.map TEntry.s1 stream1) pre (List.map TEntry.s2 taken) post
        hcomb.symm hne1d hpost
      refine ⟨hpre.symm, ?_⟩
      intro e he
      rw [← hpost2] at he
      simp only [List.mem_map] at he
      obtain ⟨k, _, rfl⟩ := he
      rfl
    · rw [hp1, hcase] at hcomb
      simp only [emitted1, emitted2] at hcomb
      have hpost : TEntry.u2 ∉ List.map TEntry.s2 stream2 := by simp
      obtain ⟨hpre, hpost2⟩ := append_cons_unique TEntry.u2
        (TEntry.u1 :: List.map TEntry.s1 stream1) pre (List.map TEntry.s2 stream2) post
        hcomb.symm hne1d hpost
      refine ⟨hpre.symm, ?_⟩
      intro e he
      rw [← hpost2] at he
      simp only [List.mem_map] at he
      obtain ⟨k, _, rfl⟩ := he
      rfl

/-- Witness for `c3_pair_sends_serialized` at the reachable configuration
in which the first send's (empty-stream) turn has completed and the second
send's turn has just started. -/
theorem c3_pair_sends_serialized_witness :
    ¬((ProcPhase.done).isRunning = true ∧ (ProcPhase.running [] []).isRunning = true) ∧
    (∀ pre post,
      [TEntry.u1, TEntry.u2] = pre ++ TEntry.u2 :: post →
      pre = TEntry.u1 :: List.map TEntry.s1 [] ∧ ∀ e ∈ post, e.isTurn2 = true) :=
  c3_pair_sends_serialized [] []
    { transcript := [TEntry.u1, TEntry.u2], queryHeld := some 2,
      p1 := ProcPhase.done, p2 := ProcPhase.running [] [] }
    (PairReachable.step _ _
      (PairReachable.step _ _
        (PairReachable.step _ _ PairReachable.init
          (PairStep.issue1Start initPairConfig rfl rfl))
        (PairStep.finish1 _ [] rfl))
      (PairStep.issue2Start _ rfl (by decide) rfl))

/-- C7 evidence: the half-removed state the claimed invariant rules out is
reachable.  A fresh transport client (id 7, carrying no session id)
connects — `SessionManager.subscribe` creates a session whose `sessionId`
is still null and adds the client to its subscriber set — and then
disconnects.  Because `SessionManager.unsubscribe` resolves the session
through `client.sessionId` (which is undefined), it only deletes the
client-to-session binding: afterwards the binding is gone while the client
is still in the session's subscriber set. -/
theorem c7_unsubscribe_leaves_stale_subscriber :
    ((managerUnsubscribe (managerSubscribe emptyManager emptyClientStore 7).1
        (managerSubscribe emptyManager emptyClientStore 7).2.1 7).sessions.map
      (fun s => s.clients)) = [[7]] ∧
    (managerUnsubscribe (managerSubscribe emptyManager emptyClientStore 7).1
        (managerSubscribe emptyManager emptyClientStore 7).2.1 7).binding 7 = none := by
  constructor
  · rfl
  · rfl
/-- C1 counterexample: the claim asserts the pending detection reports
pending=false when the plan-exit tool-use's only result carries the error
flag with a text that is not a known placeholder phrase.  On the transcript
`[ExitPlanMode tool use, error result "User rejected the plan"]` the result
text is not a placeholder, yet `findLatestPendingExitPlanModeToolUseId`
still reports the tool use as pending. -/
theorem c1_decline_still_reported_pending :
    isNonInteractivePromptPlaceholder (some declineToolResultBlock) = false ∧
    findLatestPendingExitPlanModeToolUseId [exitPlanToolUseMessage, declineToolResultMessage] = some "toolu_01" := by
  decide

/-- C1 (amended): for every transcript whose most recent interactive
(plan-exit) tool invocation has exactly one matching tool-result, the
pending detection reports pending=true whenever that result carries the
error flag — regardless of whether its text is a placeholder phrase or an
explicit decline (the code deliberately keeps a declined plan
re-approvable) — and pending=false exactly when the result is successful. -/
theorem c1_error_result_keeps_pending (pre : List SDKMessage) (m : SDKMessage)
    (tool : ToolUseRef) (resText : String) (isErr : Bool)
    (htool : (extractToolUseBlocks m).find? (fun t => t.name == "ExitPlanMode") = some tool) :
    findLatestPendingExitPlanModeToolUseId
        (pre ++ [m, mkToolResultUserMessage tool.id resText isErr]) =
      if isErr then some tool.id else none := by
  unfold findLatestPendingExitPlanModeToolUseId
  have hrev : (pre ++ [m, mkToolResultUserMessage tool.id resText isErr]).reverse =
      mkToolResultUserMessage tool.id resText isErr :: m :: pre.reverse := by
    simp
  rw [hrev]
  rw [findPendingScan, extract_mkToolResultUserMessage]
  simp only [List.find?_nil]
  rw [findPendingScan, htool]
  have hres : findResultForward [mkToolResultUserMessage tool.id resText isErr] tool.id =
      some (!isErr) := by
    simp [findResultForward, messageHasToolResult, mkToolResultUserMessage]
  simp only [hres]
  cases isErr <;> rfl

/-- Witness for `c1_error_result_keeps_pending` at a concrete transcript
whose error result text is the literal placeholder phrase. -/
theorem c1_error_result_keeps_pending_witness :
    findLatestPendingExitPlanModeToolUseId
        ([] ++ [exitPlanToolUseMessage,
          mkToolResultUserMessage (ToolUseRef.id ⟨"toolu_01", "ExitPlanMode"⟩) "Exit plan mode?" true]) =
      if true then some (ToolUseRef.id ⟨"toolu_01", "ExitPlanMode"⟩) else none :=
  c1_error_result_keeps_pending [] exitPlanToolUseMessage ⟨"toolu_01", "ExitPlanMode"⟩
    "Exit plan mode?" true (by decide)

end ClaudeAgentKit
